import Mathlib

/-!
Shallow embedding of the `rank_choicer` package (instant-runoff vote counter).

Source files embedded:
- `src/rank_choicer/elimination_strategy.py` (`EliminationStrategy`)
- `src/rank_choicer/round_result.py` (`RoundResult`, `__post_init__` validation)
- `src/rank_choicer/rank_choice_counter.py` (`RankChoiceCounter`: construction,
  vote validation, round tabulation `_calculate_round`, and the `count_votes`
  driver loop).

Python dictionaries are modelled as association lists in insertion order;
Python's `random.choice` is modelled by an injectable index source; exceptions
become `Except` / explicit error outcomes carried next to the final state.

The staged `round_result.py` declares the dataclass field
`eliminated_option: str | None` (singular), while `rank_choice_counter.py`
constructs every round result with the keyword `eliminated_options=`
(plural, list-valued); a Python dataclass `__init__` rejects the unknown
keyword with `TypeError`. The embedding models that crash where it occurs:
every construction path of `_calculate_round` errors, so the counting loop
never completes a round and the terminal-tie check is dead code.
-/

/-- Decidable equality for `Except`, so concrete runs can be checked by
`decide`. -/
def exceptDecEq {ε α : Type} [DecidableEq ε] [DecidableEq α] :
    (a b : Except ε α) → Decidable (a = b)
  | Except.ok a, Except.ok b =>
    if h : a = b then isTrue (by rw [h])
    else isFalse (by intro hc; cases hc; exact h rfl)
  | Except.ok _, Except.error _ => isFalse (by intro hc; cases hc)
  | Except.error _, Except.ok _ => isFalse (by intro hc; cases hc)
  | Except.error e, Except.error f =>
    if h : e = f then isTrue (by rw [h])
    else isFalse (by intro hc; cases hc; exact h rfl)

instance {ε α : Type} [DecidableEq ε] [DecidableEq α] :
    DecidableEq (Except ε α) :=
  exceptDecEq

/-- The `EliminationStrategy` enum from `elimination_strategy.py`. -/
inductive EliminationStrategy where
  | BATCH
  | RANDOM
deriving DecidableEq, Repr

/-- Model of Python's `str.strip()`: drop leading and trailing whitespace. -/
def pyStrip (s : String) : String :=
  String.mk (((s.data.dropWhile Char.isWhitespace).reverse.dropWhile
    Char.isWhitespace).reverse)

/-- The distinct elements of a list in order of first occurrence: the key
order of a Python `dict` / `collections.Counter` built by insertion. -/
def firstOccurrences {α : Type} [DecidableEq α] : List α → List α
  | [] => []
  | x :: xs => x :: (firstOccurrences xs).filter (fun y => decide (y ≠ x))

/-- Model of `collections.Counter(l)` as an association list in Python's
key insertion order (first occurrence order). -/
def pythonCounter {α : Type} [DecidableEq α] [BEq α] (l : List α) :
    List (α × Nat) :=
  (firstOccurrences l).map (fun k => (k, l.count k))

/-- The `RoundResult` record exactly as `round_result.py` declares it: the
elimination field is the singular `eliminated_option : str | None`. The
counter constructs round results with an `eliminated_options=` keyword
instead, which this dataclass rejects with `TypeError`. -/
structure RoundResult where
  round_number : Int
  vote_counts : List (String × Nat)
  eliminated_option : Option String
  winner : Option String
deriving DecidableEq, Repr

/-- Validation of `RoundResult.__post_init__`: raise unless the round number is
non-negative (the code checks `round_number < 0`); the defensive copy of
`vote_counts` is the identity on immutable values. -/
def mkRoundResult (round_number : Int) (vote_counts : List (String × Nat))
    (eliminated_option : Option String) (winner : Option String) :
    Except String RoundResult :=
  if round_number < 0 then
    Except.error "Round number must be non-negative"
  else
    Except.ok ⟨round_number, vote_counts, eliminated_option, winner⟩

/-- Engine state: the four fields set up by `RankChoiceCounter.__init__`. -/
structure RankChoiceCounter where
  _options : List String
  _elimination_strategy : EliminationStrategy
  _round_results : List RoundResult
  _eliminated_options : List String
deriving DecidableEq, Repr

/-- Construction per `RankChoiceCounter.__init__`: reject an empty option list, strip every
option, reject duplicates among the stripped options (checked by comparing
the size of the set of options with the length of the list), then store the
sanitized options and empty results. -/
def mkCounter (options : List String)
    (elimination_strategy : EliminationStrategy) :
    Except String RankChoiceCounter :=
  if options = [] then
    Except.error "Options list cannot be empty"
  else
    let sanitized_options := options.map pyStrip
    if (firstOccurrences sanitized_options).length ≠ sanitized_options.length
    then
      Except.error "Duplicate options are not allowed"
    else
      Except.ok ⟨sanitized_options, elimination_strategy, [], []⟩

/-- Validation errors raised by `RankChoiceCounter._validate_votes`; each
constructor carries the offending voter. -/
inductive VError where
  | invalidVoter (voter : String)
  | tooMany (voter : String)
  | emptyPrefs (voter : String)
  | invalidType (voter : String)
  | invalidOptions (voter : String) (bad : List (Option String))
  | duplicatePrefs (voter : String)
deriving DecidableEq, Repr

/-- Validation per `RankChoiceCounter._validate_votes`: ballots are voter/preference pairs in
dict insertion order; a preference value is `Option String`, `none` standing
for a non-string entry (e.g. Python `None`), which the
`isinstance(pref, str)` check rejects. The checks run per entry in source
order and the first failing check raises. -/
def validateVotes (opts : List String) :
    List (String × List (Option String)) → Except VError Unit
  | [] => Except.ok ()
  | (voter, preferences) :: rest =>
    if pyStrip voter = "" then
      Except.error (VError.invalidVoter voter)
    else if opts.length < preferences.length then
      Except.error (VError.tooMany voter)
    else if preferences = [] then
      Except.error (VError.emptyPrefs voter)
    else if preferences.any (fun p => p.isNone) then
      Except.error (VError.invalidType voter)
    else if firstOccurrences (preferences.filter
        (fun p => decide (¬ p ∈ opts.map some))) ≠ [] then
      Except.error (VError.invalidOptions voter
        (firstOccurrences (preferences.filter
          (fun p => decide (¬ p ∈ opts.map some)))))
    else if (firstOccurrences preferences).length ≠ preferences.length then
      Except.error (VError.duplicatePrefs voter)
    else
      validateVotes opts rest

/-- The `_validate_votes` check applied to a ballot mapping whose preference values are
all genuine strings (the declared type `dict[str, list[str]]`). -/
def validateVotesS (opts : List String)
    (votes : List (String × List String)) : Except VError Unit :=
  validateVotes opts (votes.map (fun p => (p.1, p.2.map some)))

/-- Ballot validation as the specification words it, with condition (a)
amended to "non-empty after stripping whitespace": each entry is checked,
in this order of precedence, for (a) a voter id that is non-blank,
(b) a preference count not exceeding the number of options, (c) a non-empty
preference list, (d) every preference a string, (e) every preference a
member of the current option set (reporting the offending subset), and
(f) no duplicate preferences; the first violated condition determines the
error, which identifies the offending voter. -/
def validateVotesSpec (opts : List String) :
    List (String × List (Option String)) → Except VError Unit
  | [] => Except.ok ()
  | (voter, preferences) :: rest =>
    if ¬ pyStrip voter ≠ "" then
      Except.error (VError.invalidVoter voter)
    else if ¬ preferences.length ≤ opts.length then
      Except.error (VError.tooMany voter)
    else if ¬ preferences ≠ [] then
      Except.error (VError.emptyPrefs voter)
    else if ¬ (∀ p ∈ preferences, p.isSome) then
      Except.error (VError.invalidType voter)
    else if ¬ (∀ p ∈ preferences, p ∈ opts.map some) then
      Except.error (VError.invalidOptions voter
        (firstOccurrences (preferences.filter
          (fun p => decide (¬ p ∈ opts.map some)))))
    else if ¬ preferences.Nodup then
      Except.error (VError.duplicatePrefs voter)
    else
      validateVotesSpec opts rest

/-- The current first preference of every non-exhausted ballot:
`[prefs[0] for prefs in votes.values() if prefs]`. -/
def firstPrefs (votes : List (String × List String)) : List String :=
  votes.filterMap (fun p => p.2.head?)

/-- The zero-fill loop of `_calculate_round`: walk the tracked options and
append `(option, 0)` for every option not already a key of the count map. -/
def fillZeros (vc : List (String × Nat)) : List String → List (String × Nat)
  | [] => vc
  | o :: os =>
    if vc.any (fun p => p.1 = o) then fillZeros vc os
    else fillZeros (vc ++ [(o, 0)]) os

/-- The complete per-round count map of `_calculate_round`: tally first
preferences in insertion order, then zero-fill the tracked options. -/
def voteCounts (votes : List (String × List String)) (opts : List String) :
    List (String × Nat) :=
  fillZeros (pythonCounter (firstPrefs votes)) opts

/-- The quantity `total_votes = sum(vote_counts.values())`. -/
def totalVotes (vc : List (String × Nat)) : Nat :=
  (vc.map Prod.snd).sum

/-- The strict-majority test of `_calculate_round`: a count beats
`total_votes / 2` computed with real (rational) division. -/
def majorityHolds (total : Nat) (count : Nat) : Prop :=
  (total : ℚ) / 2 < (count : ℚ)

/-- The strict real-division majority test agrees with the integer test
`total < 2 * count` (both sides exact, no rounding involved). -/
theorem majorityHolds_iff (total count : Nat) :
    majorityHolds total count ↔ total < 2 * count := by
  unfold majorityHolds
  rw [div_lt_iff₀ (by norm_num : (0 : ℚ) < 2), mul_comm]
  constructor
  · intro h
    exact_mod_cast h
  · intro h
    exact_mod_cast h

instance (total count : Nat) : Decidable (majorityHolds total count) :=
  decidable_of_iff _ (majorityHolds_iff total count).symm

/-- The count-map entries whose option is not yet eliminated in this run:
the generator `... if option not in self._eliminated_options`. -/
def activeCounts (vc : List (String × Nat)) (elim : List String) :
    List (String × Nat) :=
  vc.filter (fun p => decide (¬ p.1 ∈ elim))

/-- Failure modes of `_calculate_round`: `minEmpty` is Python's `min()`
raising `ValueError` when every key of the count map is already
eliminated; `typeError` is the `TypeError` raised by every
`RoundResult(...)` construction in `_calculate_round`, which passes the
keyword `eliminated_options=` to a dataclass whose only elimination field
is `eliminated_option`. -/
inductive CalcError where
  | minEmpty
  | typeError
deriving DecidableEq, Repr

/-- Round tabulation per `RankChoiceCounter._calculate_round`. The counts,
their zero fill, the total, and the majority scan execute as written; but
every return path then constructs `RoundResult(...)` with the keyword
`eliminated_options=`, which the dataclass in `round_result.py` (field
`eliminated_option`) rejects with `TypeError`: the winner path at line
205, the BATCH path at line 219, and the RANDOM path at line 228 (there
`random.choice` succeeds first, since the tied set is non-empty whenever
the active set is). Only when every key of the count map is already
eliminated does `min()` raise beforehand (`minEmpty`). No `RoundResult`
is ever returned. `rand` models the index `random.choice` would draw; it
is consumed before the construction raises and never affects the
outcome. -/
def calculateRound (opts elim : List String) (strat : EliminationStrategy)
    (rand : Nat) (round_number : Int)
    (votes : List (String × List String)) : Except CalcError RoundResult :=
  match (voteCounts votes opts).find?
      (fun p => decide (majorityHolds (totalVotes (voteCounts votes opts))
        p.2)) with
  | some _ =>
    Except.error CalcError.typeError
  | none =>
    if activeCounts (voteCounts votes opts) elim = [] then
      Except.error CalcError.minEmpty
    else
      match strat with
      | EliminationStrategy.BATCH => Except.error CalcError.typeError
      | EliminationStrategy.RANDOM => Except.error CalcError.typeError

/-- Ways a `count_votes` call can end: a validation error; an error
propagated out of `_calculate_round`; the `AttributeError` the loop body
would raise at `for eliminated in round_result.eliminated_options`
(line 125), since the dataclass has no such attribute; or exhausting the
loop fuel (never reached: the loop cannot survive its first iteration).
The terminal-tie `ValueError` of line 132 has no constructor because it
is dead code in the staged source. -/
inductive CountError where
  | validation (e : VError)
  | calc (e : CalcError)
  | attributeError
  | fuelOut
deriving DecidableEq, Repr

/-- The `while winner is None` loop of `count_votes`, with explicit fuel.
Returns the outcome together with the accumulated round history and the
eliminated-options tracker (the fields the Python loop mutates on `self`).
Every call to `_calculate_round` raises, so the error branch is the one
taken; were a round ever returned, a truthy winner would be handed back,
and a winnerless round would crash the loop body itself with
`AttributeError` at `round_result.eliminated_options` (line 125) — the
elimination bookkeeping, the terminal-tie check of lines 126-134, and any
further iteration are unreachable. -/
def runRounds (opts : List String) (strat : EliminationStrategy)
    (rand : Nat → Nat) :
    Nat → Nat → List (String × List String) → List RoundResult →
    List String → (Except CountError String × List RoundResult × List String)
  | 0, _, _, results, elim => (Except.error CountError.fuelOut, results, elim)
  | _ + 1, round_num, votes, results, elim =>
    match calculateRound opts elim strat (rand round_num) round_num votes with
    | Except.error e => (Except.error (CountError.calc e), results, elim)
    | Except.ok rr =>
      let results' := results ++ [rr]
      if rr.winner.getD "" ≠ "" then
        (Except.ok (rr.winner.getD ""), results', elim)
      else
        (Except.error CountError.attributeError, results', elim)

/-- Top-level count per `RankChoiceCounter.count_votes`: validate, clear prior results, copy the
ballots, then loop from round 1. The returned triple is the outcome, the
engine state after the call, and the caller's ballot mapping after the call
(the loop works on the copy, so the caller's data comes back unchanged). -/
def countVotes (st : RankChoiceCounter) (votes : List (String × List String))
    (rand : Nat → Nat) :
    Except CountError String × RankChoiceCounter ×
      List (String × List String) :=
  match validateVotesS st._options votes with
  | Except.error e => (Except.error (CountError.validation e), st, votes)
  | Except.ok _ =>
    let current_votes := votes.map (fun p => (p.1, p.2))
    let out := runRounds st._options st._elimination_strategy rand
      (st._options.length + 1) 1 current_votes [] []
    (out.1, { st with _round_results := out.2.1,
                      _eliminated_options := out.2.2 }, votes)

/-! ## Lemmas about the building blocks -/

theorem mem_firstOccurrences {α : Type} [DecidableEq α] (l : List α) (a : α) :
    a ∈ firstOccurrences l ↔ a ∈ l := by
  induction l with
  | nil => simp [firstOccurrences]
  | cons x xs ih =>
    by_cases h : a = x <;>
      simp [firstOccurrences, List.mem_filter, ih, h]

theorem nodup_firstOccurrences {α : Type} [DecidableEq α] (l : List α) :
    (firstOccurrences l).Nodup := by
  induction l with
  | nil => simp [firstOccurrences]
  | cons x xs ih =>
    refine List.Nodup.cons ?_ (List.Nodup.filter _ ih)
    intro hx
    have := (List.mem_filter.mp hx).2
    simp at this

theorem firstOccurrences_sublist {α : Type} [DecidableEq α] (l : List α) :
    List.Sublist (firstOccurrences l) l := by
  induction l with
  | nil => simp [firstOccurrences]
  | cons x xs ih =>
    exact List.Sublist.cons₂ x
      (List.Sublist.trans (List.filter_sublist _) ih)

theorem firstOccurrences_eq_self {α : Type} [DecidableEq α] {l : List α}
    (h : l.Nodup) : firstOccurrences l = l := by
  induction l with
  | nil => rfl
  | cons x xs ih =>
    have hx : x ∉ xs := (List.nodup_cons.mp h).1
    have hxs : xs.Nodup := (List.nodup_cons.mp h).2
    rw [firstOccurrences, ih hxs, List.filter_eq_self.mpr]
    intro a ha
    simp only [decide_eq_true_eq]
    intro hax
    exact hx (hax ▸ ha)

theorem firstOccurrences_length_iff {α : Type} [DecidableEq α] (l : List α) :
    (firstOccurrences l).length = l.length ↔ l.Nodup := by
  constructor
  · intro h
    have := List.Sublist.eq_of_length (firstOccurrences_sublist l) h
    rw [← this]
    exact nodup_firstOccurrences l
  · intro h
    rw [firstOccurrences_eq_self h]

/-- The membership check `vc.any (·.1 = o)` used by the zero-fill loop holds
iff `o` is a key of the association list. -/
theorem any_key_iff (vc : List (String × Nat)) (o : String) :
    (vc.any fun p => decide (p.1 = o)) = true ↔ ∃ c, (o, c) ∈ vc := by
  rw [List.any_eq_true]
  constructor
  · rintro ⟨⟨k, c⟩, hmem, hk⟩
    simp only [decide_eq_true_eq] at hk
    exact ⟨c, by rw [← hk]; exact hmem⟩
  · rintro ⟨c, hc⟩
    exact ⟨(o, c), hc, by simp⟩

theorem mem_pythonCounter {α : Type} [DecidableEq α] (l : List α)
    (o : α) (c : Nat) :
    (o, c) ∈ pythonCounter l ↔ o ∈ l ∧ c = l.count o := by
  simp only [pythonCounter, List.mem_map]
  constructor
  · rintro ⟨k, hk, he⟩
    have h1 : k = o := congrArg Prod.fst he
    have h2 : l.count k = c := congrArg Prod.snd he
    subst h1
    exact ⟨(mem_firstOccurrences l k).mp hk, h2.symm⟩
  · rintro ⟨ho, rfl⟩
    exact ⟨o, (mem_firstOccurrences l o).mpr ho, rfl⟩

theorem pythonCounter_sum {α : Type} [DecidableEq α] (l : List α) :
    ((pythonCounter l).map Prod.snd).sum = l.length := by
  have hnd := nodup_firstOccurrences l
  have hfin : (firstOccurrences l).toFinset = l.toFinset := by
    ext a
    simp [mem_firstOccurrences]
  have h1 : (pythonCounter l).map Prod.snd =
      (firstOccurrences l).map (fun k => l.count k) := by
    rw [pythonCounter, List.map_map]
    rfl
  rw [h1, ← List.sum_toFinset _ hnd, hfin,
    List.sum_toFinset_count_eq_length]

theorem fillZeros_exists_append (vc : List (String × Nat))
    (os : List String) : ∃ ext, fillZeros vc os = vc ++ ext ∧
      ∀ p ∈ ext, p.2 = 0 ∧ p.1 ∈ os := by
  induction os generalizing vc with
  | nil => exact ⟨[], by simp [fillZeros]⟩
  | cons o os ih =>
    rw [fillZeros]
    by_cases h : (vc.any fun p => decide (p.1 = o)) = true
    · rw [if_pos h]
      obtain ⟨ext, he, hz⟩ := ih vc
      exact ⟨ext, he, fun p hp => ⟨(hz p hp).1, List.mem_cons_of_mem _
        (hz p hp).2⟩⟩
    · rw [if_neg h]
      obtain ⟨ext, he, hz⟩ := ih (vc ++ [(o, 0)])
      refine ⟨(o, 0) :: ext, by simpa using he, ?_⟩
      intro p hp
      rcases List.mem_cons.mp hp with rfl | hp'
      · exact ⟨rfl, List.mem_cons_self o os⟩
      · exact ⟨(hz p hp').1, List.mem_cons_of_mem _ (hz p hp').2⟩

theorem fillZeros_sum (vc : List (String × Nat)) (os : List String) :
    ((fillZeros vc os).map Prod.snd).sum = (vc.map Prod.snd).sum := by
  obtain ⟨ext, he, hz⟩ := fillZeros_exists_append vc os
  rw [he, List.map_append, List.sum_append]
  have : (ext.map Prod.snd).sum = 0 := by
    apply List.sum_eq_zero
    intro x hx
    obtain ⟨p, hp, rfl⟩ := List.mem_map.mp hx
    exact (hz p hp).1
  omega

theorem mem_key_fillZeros (vc : List (String × Nat)) (os : List String)
    (o : String) :
    (∃ c, (o, c) ∈ fillZeros vc os) ↔ (∃ c, (o, c) ∈ vc) ∨ o ∈ os := by
  induction os generalizing vc with
  | nil => simp [fillZeros]
  | cons o' os ih =>
    rw [fillZeros]
    by_cases h : (vc.any fun p => decide (p.1 = o')) = true
    · rw [if_pos h, ih, List.mem_cons]
      constructor
      · rintro (hc | ho)
        · exact Or.inl hc
        · exact Or.inr (Or.inr ho)
      · rintro (hc | rfl | ho)
        · exact Or.inl hc
        · exact Or.inl ((any_key_iff vc o).mp h)
        · exact Or.inr ho
    · rw [if_neg h, ih, List.mem_cons]
      constructor
      · rintro (⟨c, hc⟩ | ho)
        · rcases List.mem_append.mp hc with hc' | hc'
          · exact Or.inl ⟨c, hc'⟩
          · have heq : (o, c) = (o', 0) := by simpa using hc'
            exact Or.inr (Or.inl (congrArg Prod.fst heq))
        · exact Or.inr (Or.inr ho)
      · rintro (⟨c, hc⟩ | rfl | ho)
        · exact Or.inl ⟨c, List.mem_append.mpr (Or.inl hc)⟩
        · exact Or.inl ⟨0, List.mem_append.mpr (Or.inr (by simp))⟩
        · exact Or.inr ho

theorem fillZeros_zero_mem (vc : List (String × Nat)) (os : List String)
    (o : String) (hvc : ∀ c, (o, c) ∉ vc) (ho : o ∈ os) :
    (o, 0) ∈ fillZeros vc os := by
  induction os generalizing vc with
  | nil => cases ho
  | cons o' os ih =>
    rw [fillZeros]
    by_cases h : (vc.any fun p => decide (p.1 = o')) = true
    · rw [if_pos h]
      rcases List.mem_cons.mp ho with rfl | ho'
      · obtain ⟨c, hc⟩ := (any_key_iff vc o).mp h
        exact absurd hc (hvc c)
      · exact ih vc hvc ho'
    · rw [if_neg h]
      by_cases ho2 : o = o'
      · subst ho2
        obtain ⟨ext, he, _⟩ := fillZeros_exists_append (vc ++ [(o, 0)]) os
        rw [he]
        simp
      · have ho' : o ∈ os := by
          rcases List.mem_cons.mp ho with h1 | h1
          · exact absurd h1 ho2
          · exact h1
        refine ih (vc ++ [(o', 0)]) ?_ ho'
        intro c hc
        rcases List.mem_append.mp hc with hc' | hc'
        · exact hvc c hc'
        · have heq : (o, c) = (o', 0) := by simpa using hc'
          exact ho2 (congrArg Prod.fst heq)

/-- The number of first preferences equals the number of ballots with at
least one remaining preference. -/
theorem firstPrefs_length (votes : List (String × List String)) :
    (firstPrefs votes).length =
      (votes.filter (fun p => ¬ p.2.isEmpty)).length := by
  induction votes with
  | nil => rfl
  | cons v vs ih =>
    cases hp : v.2 with
    | nil =>
      simp only [firstPrefs, List.filterMap_cons, hp, List.filter_cons,
        List.isEmpty_nil] at ih ⊢
      simpa using ih
    | cons a as =>
      simp only [firstPrefs, List.filterMap_cons, hp, List.filter_cons,
        List.isEmpty_cons] at ih ⊢
      simpa using ih

theorem voteCounts_key_iff (votes : List (String × List String))
    (opts : List String) (o : String) :
    (∃ c, (o, c) ∈ voteCounts votes opts) ↔
      o ∈ firstPrefs votes ∨ o ∈ opts := by
  rw [voteCounts, mem_key_fillZeros]
  constructor
  · rintro (⟨c, hc⟩ | ho)
    · exact Or.inl ((mem_pythonCounter _ o c).mp hc).1
    · exact Or.inr ho
  · rintro (ho | ho)
    · exact Or.inl ⟨(firstPrefs votes).count o,
        (mem_pythonCounter _ o _).mpr ⟨ho, rfl⟩⟩
    · exact Or.inr ho

theorem voteCounts_sum (votes : List (String × List String))
    (opts : List String) :
    totalVotes (voteCounts votes opts) =
      (votes.filter (fun p => ¬ p.2.isEmpty)).length := by
  rw [totalVotes, voteCounts, fillZeros_sum, pythonCounter_sum,
    firstPrefs_length]

/-! ## Claim theorems -/

/-- C4: every round tabulation returns a vote-count mapping whose key set
equals the engine's full tracked option set (options with no
first-preference votes mapped to zero), and whose values sum to the number
of ballots that still had at least one remaining preference; ballots with
no remaining preferences contribute nothing. -/
theorem C4_vote_counts_complete (votes : List (String × List String))
    (opts : List String)
    (h : ∀ o ∈ firstPrefs votes, o ∈ opts) :
    (∀ o, (∃ c, (o, c) ∈ voteCounts votes opts) ↔ o ∈ opts) ∧
    totalVotes (voteCounts votes opts) =
      (votes.filter (fun p => ¬ p.2.isEmpty)).length ∧
    (∀ o ∈ opts, o ∉ firstPrefs votes →
      (o, 0) ∈ voteCounts votes opts) := by
  refine ⟨?_, voteCounts_sum votes opts, ?_⟩
  · intro o
    rw [voteCounts_key_iff]
    constructor
    · rintro (ho | ho)
      · exact h o ho
      · exact ho
    · exact Or.inr
  · intro o ho hnf
    rw [voteCounts]
    apply fillZeros_zero_mem
    · intro c hc
      exact hnf ((mem_pythonCounter _ o c).mp hc).1
    · exact ho

/-- Witness for C4 at a concrete pair of ballots, one of them exhausted. -/
theorem C4_vote_counts_complete_witness :
    (∀ o, (∃ c, (o, c) ∈ voteCounts [("v1", ["A", "B"]), ("v2", [])]
      ["A", "B"]) ↔ o ∈ ["A", "B"]) ∧
    totalVotes (voteCounts [("v1", ["A", "B"]), ("v2", [])] ["A", "B"]) =
      (([("v1", ["A", "B"]), ("v2", [])] :
        List (String × List String)).filter
          (fun p => ¬ p.2.isEmpty)).length ∧
    (∀ o ∈ ["A", "B"], o ∉ firstPrefs [("v1", ["A", "B"]), ("v2", [])] →
      (o, 0) ∈ voteCounts [("v1", ["A", "B"]), ("v2", [])] ["A", "B"]) :=
  C4_vote_counts_complete [("v1", ["A", "B"]), ("v2", [])] ["A", "B"]
    (by decide)

/-- When validation passes, `count_votes` clears state and hands off to the
round loop with fuel that bounds every possible run. -/
theorem countVotes_ok_eq (st : RankChoiceCounter)
    (votes : List (String × List String)) (rand : Nat → Nat)
    (h : validateVotesS st._options votes = Except.ok ()) :
    countVotes st votes rand =
      ((runRounds st._options st._elimination_strategy rand
          (st._options.length + 1) 1 (votes.map (fun p => (p.1, p.2)))
          [] []).1,
        { st with
          _round_results := (runRounds st._options st._elimination_strategy
            rand (st._options.length + 1) 1
            (votes.map (fun p => (p.1, p.2))) [] []).2.1,
          _eliminated_options := (runRounds st._options
            st._elimination_strategy rand (st._options.length + 1) 1
            (votes.map (fun p => (p.1, p.2))) [] []).2.2 },
        votes) := by
  unfold countVotes
  rw [h]

theorem firstOccurrences_eq_nil_iff {α : Type} [DecidableEq α]
    (l : List α) : firstOccurrences l = [] ↔ l = [] := by
  cases l with
  | nil => simp [firstOccurrences]
  | cons x xs => simp [firstOccurrences]

/-- C5 (amended): ballot validation agrees with the spec-phrased check
order, with condition (a) reading "non-empty after stripping whitespace". -/
theorem C5_validation_order (opts : List String)
    (votes : List (String × List (Option String))) :
    validateVotes opts votes = validateVotesSpec opts votes := by
  induction votes with
  | nil => rfl
  | cons v rest ih =>
    obtain ⟨voter, preferences⟩ := v
    rw [validateVotes, validateVotesSpec]
    by_cases h1 : pyStrip voter = ""
    · rw [if_pos h1, if_pos (not_not_intro h1)]
    · rw [if_neg h1, if_neg (not_not_intro h1)]
      by_cases h2 : opts.length < preferences.length
      · rw [if_pos h2, if_pos (not_le.mpr h2)]
      · rw [if_neg h2, if_neg (not_not_intro (not_lt.mp h2))]
        by_cases h3 : preferences = []
        · rw [if_pos h3, if_pos (not_not_intro h3)]
        · rw [if_neg h3, if_neg (not_not_intro h3)]
          by_cases h4 : (preferences.any fun p => p.isNone) = true
          · have hno : ¬ ∀ p ∈ preferences, p.isSome = true := by
              obtain ⟨p, hp, hn⟩ := List.any_eq_true.mp h4
              intro hall
              have := hall p hp
              cases p with
              | none => cases this
              | some a => cases hn
            rw [if_pos h4, if_pos hno]
          · have hall : ∀ p ∈ preferences, p.isSome = true := by
              intro p hp
              by_contra hc
              apply h4
              refine List.any_eq_true.mpr ⟨p, hp, ?_⟩
              cases p with
              | none => rfl
              | some a => exact absurd rfl hc
            rw [if_neg h4, if_neg (not_not_intro hall)]
            have h5iff : firstOccurrences (preferences.filter
                (fun p => decide (¬ p ∈ opts.map some))) ≠ [] ↔
                ¬ ∀ p ∈ preferences, p ∈ opts.map some := by
              rw [Ne, firstOccurrences_eq_nil_iff, List.filter_eq_nil_iff]
              simp
            by_cases h5 : ∀ p ∈ preferences, p ∈ opts.map some
            · rw [if_neg (fun hc => (h5iff.mp hc) h5),
                if_neg (not_not_intro h5)]
              by_cases h6 : preferences.Nodup
              · rw [if_neg (not_not_intro
                  ((firstOccurrences_length_iff preferences).mpr h6)),
                  if_neg (not_not_intro h6)]
                exact ih
              · rw [if_pos (fun hc => h6
                  ((firstOccurrences_length_iff preferences).mp hc)),
                  if_pos h6]
            · rw [if_pos (h5iff.mpr h5), if_pos h5]

/-- C5 counterexample: the voter id `" "` is a non-empty string, so under
the claim's condition (a) this ballot mapping violates no condition at all,
yet validation rejects it as an invalid voter (the code checks the id
after stripping whitespace). -/
theorem C5_counterexample :
    (" " : String) ≠ "" ∧
    validateVotes ["A"] [(" ", [some "A"])] =
      Except.error (VError.invalidVoter " ") := by
  exact ⟨by decide, by decide⟩

/-- C6: when ballot validation fails, `count_votes` raises the validation
error before any round runs and leaves the engine state and the caller's
ballots exactly as they were. -/
theorem C6_validation_failure_frame (st : RankChoiceCounter)
    (votes : List (String × List String)) (rand : Nat → Nat) (e : VError)
    (h : validateVotesS st._options votes = Except.error e) :
    countVotes st votes rand =
      (Except.error (CountError.validation e), st, votes) := by
  unfold countVotes
  rw [h]

/-- Witness for C6: an engine still holding prior results rejects a ballot
map with an empty voter id and is returned entirely unchanged. -/
theorem C6_validation_failure_frame_witness :
    countVotes ⟨["A"], EliminationStrategy.BATCH,
        [⟨1, [("A", 0)], some "A", none⟩], ["A"]⟩
        [("", ["A"])] (fun _ => 0) =
      (Except.error (CountError.validation (VError.invalidVoter "")),
        ⟨["A"], EliminationStrategy.BATCH,
          [⟨1, [("A", 0)], some "A", none⟩], ["A"]⟩,
        [("", ["A"])]) :=
  C6_validation_failure_frame ⟨["A"], EliminationStrategy.BATCH,
    [⟨1, [("A", 0)], some "A", none⟩], ["A"]⟩
    [("", ["A"])] (fun _ => 0) (VError.invalidVoter "") (by decide)

/-- C7: construction trims each option, fails exactly when the list is
empty or the trimmed list has duplicates, and on success stores exactly the
trimmed list in the original order (which the `options` accessor returns). -/
theorem C7_constructor (options : List String)
    (strat : EliminationStrategy) :
    ((∃ c, mkCounter options strat = Except.ok c) ↔
      options ≠ [] ∧ (options.map pyStrip).Nodup) ∧
    (∀ c, mkCounter options strat = Except.ok c →
      c._options = options.map pyStrip) := by
  constructor
  · constructor
    · rintro ⟨c, hc⟩
      unfold mkCounter at hc
      by_cases h1 : options = []
      · rw [if_pos h1] at hc
        cases hc
      · rw [if_neg h1] at hc
        dsimp only at hc
        by_cases h2 : (firstOccurrences (options.map pyStrip)).length ≠
            (options.map pyStrip).length
        · rw [if_pos h2] at hc
          cases hc
        · refine ⟨h1, ?_⟩
          rw [← firstOccurrences_length_iff]
          exact not_not.mp h2
    · rintro ⟨hne, hnd⟩
      refine ⟨⟨options.map pyStrip, strat, [], []⟩, ?_⟩
      unfold mkCounter
      rw [if_neg hne]
      dsimp only
      rw [if_neg (not_not_intro
        ((firstOccurrences_length_iff (options.map pyStrip)).mpr hnd))]
  · intro c hc
    unfold mkCounter at hc
    by_cases h1 : options = []
    · rw [if_pos h1] at hc
      cases hc
    · rw [if_neg h1] at hc
      dsimp only at hc
      by_cases h2 : (firstOccurrences (options.map pyStrip)).length ≠
          (options.map pyStrip).length
      · rw [if_pos h2] at hc
        cases hc
      · rw [if_neg h2] at hc
        cases hc
        rfl

/-- Witness for C7: constructing with `["A ", "B"]` trims to `["A", "B"]`
and stores exactly that list. -/
theorem C7_constructor_witness :
    RankChoiceCounter._options
        (RankChoiceCounter.mk ["A", "B"] EliminationStrategy.BATCH [] []) =
      ["A ", "B"].map pyStrip :=
  (C7_constructor ["A ", "B"] EliminationStrategy.BATCH).2
    ⟨["A", "B"], EliminationStrategy.BATCH, [], []⟩ (by decide)

/-- C8: `count_votes` returns the caller's ballot mapping unchanged (the
loop works on a copy) and the engine's tracked option set is identical
after the run, whatever the outcome. -/
theorem C8_frame (st : RankChoiceCounter)
    (votes : List (String × List String)) (rand : Nat → Nat) :
    (countVotes st votes rand).2.2 = votes ∧
    (countVotes st votes rand).2.1._options = st._options := by
  unfold countVotes
  cases hv : validateVotesS st._options votes with
  | error e => exact ⟨rfl, rfl⟩
  | ok u => exact ⟨rfl, rfl⟩

/-- C9 (amended): `RoundResult` construction fails exactly when the round
number is negative; any round number ≥ 0 passes this check. -/
theorem C9_round_number_check (n : Int) (vc : List (String × Nat))
    (eo : Option String) (w : Option String) :
    (∃ rr, mkRoundResult n vc eo w = Except.ok rr) ↔ 0 ≤ n := by
  unfold mkRoundResult
  by_cases h : n < 0
  · rw [if_pos h]
    constructor
    · rintro ⟨rr, hrr⟩
      cases hrr
    · intro hle
      exact absurd h (not_lt.mpr hle)
  · rw [if_neg h]
    exact ⟨fun _ => not_lt.mp h, fun _ => ⟨_, rfl⟩⟩

/-- C9 counterexample: round number 0 is below 1, yet construction
succeeds — the code only rejects negative round numbers. -/
theorem C9_counterexample :
    mkRoundResult 0 [] none none = Except.ok ⟨0, [], none, none⟩ ∧
    (0 : Int) < 1 := by
  exact ⟨by decide, by decide⟩

/-- Every invocation of `_calculate_round` raises: `TypeError` from the
`RoundResult` construction on the winner, BATCH, and RANDOM paths, or
`ValueError` from `min()` when every key of the count map is already
eliminated. No `RoundResult` is ever returned. -/
theorem calculateRound_always_errors (opts elim : List String)
    (strat : EliminationStrategy) (rand : Nat) (rn : Int)
    (votes : List (String × List String)) :
    calculateRound opts elim strat rand rn votes =
      Except.error CalcError.typeError ∨
    calculateRound opts elim strat rand rn votes =
      Except.error CalcError.minEmpty := by
  cases hf : (voteCounts votes opts).find?
      (fun p => decide (majorityHolds (totalVotes (voteCounts votes opts))
        p.2)) with
  | some p =>
    left
    unfold calculateRound
    rw [hf]
  | none =>
    by_cases ha : activeCounts (voteCounts votes opts) elim = []
    · right
      unfold calculateRound
      rw [hf, if_pos ha]
    · left
      unfold calculateRound
      rw [hf, if_neg ha]
      cases strat with
      | BATCH => rfl
      | RANDOM => rfl

/-- Every `count_votes` run either fails validation with the engine state
and the caller's ballots untouched, or crashes inside `_calculate_round`
during round 1, leaving the freshly cleared (empty) round history and
eliminated-options tracker: no winner, no terminal tie, and no stored
round is ever produced. -/
theorem countVotes_crashes (st : RankChoiceCounter)
    (votes : List (String × List String)) (rand : Nat → Nat) :
    (∃ e, countVotes st votes rand =
      (Except.error (CountError.validation e), st, votes)) ∨
    (∃ e, countVotes st votes rand =
      (Except.error (CountError.calc e),
        { st with _round_results := [], _eliminated_options := [] },
        votes)) := by
  cases hv : validateVotesS st._options votes with
  | error e =>
    left
    refine ⟨e, ?_⟩
    unfold countVotes
    rw [hv]
  | ok u =>
    right
    cases u
    rw [countVotes_ok_eq st votes rand hv]
    rcases calculateRound_always_errors st._options [] st._elimination_strategy
        (rand 1) ((1 : Nat) : Int) (votes.map (fun p => (p.1, p.2)))
      with h | h
    · refine ⟨CalcError.typeError, ?_⟩
      rw [runRounds, h]
    · refine ⟨CalcError.minEmpty, ?_⟩
      rw [runRounds, h]

/-- C1 (code bug): no `RoundResult` — in particular no winner-carrying
one — is ever returned by `_calculate_round`; at a ballot mapping where
option A holds a strict majority (the clear-winner scenario of the test
suite), the round raises `TypeError` from the mismatched
`eliminated_options=` keyword instead of returning the winner. -/
theorem C1_winner_crash :
    (∀ (opts elim : List String) (strat : EliminationStrategy) (rand : Nat)
      (rn : Int) (votes : List (String × List String)),
      calculateRound opts elim strat rand rn votes =
        Except.error CalcError.typeError ∨
      calculateRound opts elim strat rand rn votes =
        Except.error CalcError.minEmpty) ∧
    calculateRound ["A", "B", "C"] [] EliminationStrategy.BATCH 0 1
      [("v1", ["A", "B", "C"]), ("v2", ["A", "C"]), ("v3", ["A", "B"])] =
      Except.error CalcError.typeError ∧
    (∃ p ∈ voteCounts [("v1", ["A", "B", "C"]), ("v2", ["A", "C"]),
        ("v3", ["A", "B"])] ["A", "B", "C"],
      majorityHolds (totalVotes (voteCounts [("v1", ["A", "B", "C"]),
        ("v2", ["A", "C"]), ("v3", ["A", "B"])] ["A", "B", "C"])) p.2) :=
  ⟨calculateRound_always_errors, by decide, by decide⟩

/-- C2 (code bug): at the five-ballot scenario with counts A:2, B:2, C:1
(no strict majority, all three options active), `_calculate_round` raises
`TypeError` under BATCH and under RANDOM alike — the tied-for-last
elimination the claim describes is never delivered in a `RoundResult`. -/
theorem C2_elimination_crash :
    (∀ p ∈ voteCounts [("v1", ["A", "B", "C"]), ("v2", ["A", "C", "B"]),
        ("v3", ["B", "C", "A"]), ("v4", ["B", "C", "A"]),
        ("v5", ["C", "B", "A"])] ["A", "B", "C"],
      ¬ majorityHolds (totalVotes (voteCounts [("v1", ["A", "B", "C"]),
        ("v2", ["A", "C", "B"]), ("v3", ["B", "C", "A"]),
        ("v4", ["B", "C", "A"]), ("v5", ["C", "B", "A"])] ["A", "B", "C"]))
        p.2) ∧
    (activeCounts (voteCounts [("v1", ["A", "B", "C"]),
      ("v2", ["A", "C", "B"]), ("v3", ["B", "C", "A"]),
      ("v4", ["B", "C", "A"]), ("v5", ["C", "B", "A"])] ["A", "B", "C"])
      []).length = 3 ∧
    calculateRound ["A", "B", "C"] [] EliminationStrategy.BATCH 0 1
      [("v1", ["A", "B", "C"]), ("v2", ["A", "C", "B"]),
       ("v3", ["B", "C", "A"]), ("v4", ["B", "C", "A"]),
       ("v5", ["C", "B", "A"])] = Except.error CalcError.typeError ∧
    calculateRound ["A", "B", "C"] [] EliminationStrategy.RANDOM 0 1
      [("v1", ["A", "B", "C"]), ("v2", ["A", "C", "B"]),
       ("v3", ["B", "C", "A"]), ("v4", ["B", "C", "A"]),
       ("v5", ["C", "B", "A"])] = Except.error CalcError.typeError := by
  exact ⟨by decide, by decide, by decide, by decide⟩

/-- C3 (code bug): the terminal-tie error is unreachable. Every run either
fails validation (state untouched) or dies with the `_calculate_round`
crash in round 1, leaving empty history and an empty tracker; at the
two-option batch scenario that the claim expects to end in the terminal
tie with a full tracker, the run ends in `TypeError` with both empty. -/
theorem C3_tie_unreachable :
    (∀ (st : RankChoiceCounter) (votes : List (String × List String))
      (rand : Nat → Nat),
      (∃ e, countVotes st votes rand =
        (Except.error (CountError.validation e), st, votes)) ∨
      (∃ e, countVotes st votes rand =
        (Except.error (CountError.calc e),
          { st with _round_results := [], _eliminated_options := [] },
          votes))) ∧
    countVotes ⟨["A", "B"], EliminationStrategy.BATCH, [], []⟩
      [("v1", ["A"]), ("v2", ["B"])] (fun _ => 0) =
      (Except.error (CountError.calc CalcError.typeError),
        ⟨["A", "B"], EliminationStrategy.BATCH, [], []⟩,
        [("v1", ["A"]), ("v2", ["B"])]) :=
  ⟨countVotes_crashes, by decide⟩

/-- C10 (code bug): an empty ballot mapping passes validation, but instead
of eliminating options round by round until the terminal tie, the run
crashes with the `_calculate_round` `TypeError` in round 1 under either
strategy, eliminating nothing and storing no rounds. -/
theorem C10_empty_ballots_crash :
    validateVotesS ["A", "B"] [] = Except.ok () ∧
    countVotes ⟨["A", "B"], EliminationStrategy.RANDOM, [], []⟩ []
      (fun _ => 0) =
      (Except.error (CountError.calc CalcError.typeError),
        ⟨["A", "B"], EliminationStrategy.RANDOM, [], []⟩, []) ∧
    countVotes ⟨["A", "B"], EliminationStrategy.BATCH, [], []⟩ []
      (fun _ => 0) =
      (Except.error (CountError.calc CalcError.typeError),
        ⟨["A", "B"], EliminationStrategy.BATCH, [], []⟩, []) := by
  exact ⟨rfl, by decide, by decide⟩
